import Mathlib

/-!
Shallow embedding of `convert_words_pdfs/converter.py`, a bulk/single-file
Word <-> PDF converter.  External backends (the `soffice` binary, the Word
COM automation interface, the `docx2pdf` and `pdf2docx` libraries) are
modelled as oracles in an environment record: for each per-file call the
oracle says whether the call raised (and with which message) and whether
the expected output file exists afterwards.  Filesystem directories are
modelled as lists of direct child entries.
-/

/-- A direct child of a directory: base name without extension (`Path.stem`),
the extension with its leading dot (`Path.suffix`), and whether the entry is
a regular file (`Path.is_file`). -/
structure Entry where
  stem : String
  suffix : String
  isFile : Bool
  deriving DecidableEq, Repr

/-- `Path.name`: stem plus extension. -/
def fileName (e : Entry) : String := e.stem ++ e.suffix

/-- `str.lower()` restricted to ASCII case folding, character by character. -/
def strLower (s : String) : String := ⟨s.data.map Char.toLower⟩

/-- Errors raised by the converter, mirroring the Python exceptions. -/
inductive ConvError where
  /-- `FileNotFoundError` with its message. -/
  | fileNotFound (msg : String)
  /-- An exception raised by an external backend call, with its description. -/
  | backendExc (desc : String)
  /-- `RuntimeError("LibreOffice no generó el archivo esperado")`. -/
  | noOutput
  /-- The final `RuntimeError` of `convert_doc_to_docx`, raised
  `from last_exc` where `last_exc is None`. -/
  | normalizationNoCause
  /-- The final `RuntimeError` of `convert_doc_to_docx`, raised
  `from last_exc` with `last_exc` the given underlying cause. -/
  | normalizationFrom (cause : ConvError)
  /-- `RuntimeError` raised when `docx2pdf` failed to import. -/
  | docx2pdfUnavailable
  /-- `RuntimeError` raised when `pdf2docx` failed to import. -/
  | pdf2docxUnavailable
  deriving DecidableEq, Repr

/-- Message of the final normalization `RuntimeError` in
`convert_doc_to_docx`. -/
def normalizationMsg : String :=
  "No se pudo convertir .doc a .docx. Instala LibreOffice (soffice en PATH) o ajusta Centro de confianza de Word para permitir .doc."

/-- The human-readable message attached to each error, as in the source. -/
def errMessage : ConvError → String
  | .fileNotFound m => m
  | .backendExc d => d
  | .noOutput => "LibreOffice no generó el archivo esperado"
  | .normalizationNoCause => normalizationMsg
  | .normalizationFrom _ => normalizationMsg
  | .docx2pdfUnavailable => "docx2pdf is not available. Install with 'pip install docx2pdf' and ensure Word or LibreOffice is installed."
  | .pdf2docxUnavailable => "pdf2docx is not available. Install with 'pip install pdf2docx'."

/-- Environment of external capabilities.  A call oracle returns `none` when
the call returns normally (for `subprocess.check_call` this means exit code
zero) and `some desc` when it raises an exception described by `desc`.
Output oracles tell whether the expected output file exists after the
corresponding call returned. -/
structure Env where
  /-- `shutil.which("soffice")` resolves. -/
  soffice : Bool
  /-- the `win32com` import succeeded. -/
  win32com : Bool
  /-- the `docx2pdf` import succeeded (`docx_to_pdf_convert is not None`). -/
  docx2pdf : Bool
  /-- the `pdf2docx` import succeeded (`PdfToDocxConverter is not None`). -/
  pdf2docx : Bool
  /-- outcome of `soffice --headless --convert-to docx` on a file. -/
  sofficeDocxCall : Entry → Option String
  /-- whether the expected `.docx` exists after the soffice docx call. -/
  sofficeDocxOutput : Entry → Bool
  /-- outcome of the Word COM open/SaveAs/close sequence on a file. -/
  wordComCall : Entry → Option String
  /-- outcome of `soffice --headless --convert-to pdf` on a file. -/
  sofficePdfCall : Entry → Option String
  /-- whether the expected `.pdf` exists after the soffice pdf call. -/
  sofficePdfOutput : Entry → Bool
  /-- outcome of `docx_to_pdf_convert(source, target)` on a file. -/
  docx2pdfCall : Entry → Option String
  /-- outcome of `PdfToDocxConverter(file).convert(target)` on a file. -/
  pdf2docxCall : Entry → Option String

/-- `ensure_dir`: `path.mkdir(parents=True, exist_ok=True)` then return the
path.  Idempotent creation is modelled as the identity on the path, with the
creation itself recorded by the callers in their outcome records. -/
def ensure_dir (path : String) : String := path

/-- `iter_files_with_suffix`: yield direct children that are regular files
whose extension, lowercased, is among the lowercased allowed suffixes. -/
def iter_files_with_suffix (entries : List Entry) (suffixes : List String) : List Entry :=
  let lowered := suffixes.map strLower
  entries.filter (fun e => e.isFile && lowered.contains (strLower e.suffix))

/-- The Word COM fallback half of `convert_doc_to_docx` together with the
final `raise RuntimeError(...) from last_exc`. -/
def comFallback (env : Env) (src dest : Entry) (last_exc : Option ConvError) :
    Except ConvError Entry :=
  if env.win32com then
    match env.wordComCall src with
    | none => .ok dest
    | some d => .error (.normalizationFrom (.backendExc d))
  else
    match last_exc with
    | some e => .error (.normalizationFrom e)
    | none => .error .normalizationNoCause

/-- `convert_doc_to_docx`: prefer soffice (success only if `dest.exists()`
afterwards), fall back to Word COM, else raise chained to `last_exc`. -/
def convert_doc_to_docx (env : Env) (src : Entry) (srcExists : Bool) :
    Except ConvError Entry :=
  if !srcExists then .error (.fileNotFound (fileName src))
  else
    let dest : Entry := ⟨src.stem, ".docx", true⟩
    if env.soffice then
      match env.sofficeDocxCall src with
      | none =>
        if env.sofficeDocxOutput src then .ok dest
        else comFallback env src dest (some .noOutput)
      | some d => comFallback env src dest (some (.backendExc d))
    else comFallback env src dest none

/-- Which external backend a recorded invocation used. -/
inductive Backend where
  | sofficePdfB
  | docx2pdfB
  | pdf2docxB
  deriving DecidableEq, Repr

/-- What a recorded backend invocation was handed: a single file, or (as the
spec envisions for a batch API) a whole directory. -/
inductive Target where
  | single (e : Entry)
  | wholeDir
  deriving DecidableEq, Repr

/-- Outcome of one conversion job. -/
inductive JobOutcome where
  | success (via : Backend)
  | failed (e : ConvError)
  deriving DecidableEq, Repr

/-- Whether the job incremented the `converted` counter. -/
def JobOutcome.isSuccess : JobOutcome → Bool
  | .success _ => true
  | .failed _ => false

/-- Progress lines printed per file, as in the source. -/
inductive ReportLine where
  /-- `Converted via LibreOffice: {name} -> ...`. -/
  | convertedViaSofficeLine (name : String)
  /-- `Converted: {name} -> ...`. -/
  | convertedLine (name : String)
  /-- `LibreOffice falló con {name}: {desc}. Intentando Word/docx2pdf...`. -/
  | sofficeFailedLine (name : String) (desc : String)
  /-- `Failed to convert {name}: {cause}`. -/
  | failedLine (name : String) (cause : ConvError)
  deriving DecidableEq, Repr

/-- One job run: the outcome, the pdf-stage backend invocations in order,
and the lines printed. -/
structure JobRun where
  outcome : JobOutcome
  calls : List (Backend × Target)
  lines : List ReportLine
  deriving DecidableEq, Repr

/-- The `.doc` pre-conversion step at the top of the per-file `try` block of
`convert_docx_to_pdf` / `convert_single_docx_to_pdf`: files discovered by
iteration or already validated exist, so `srcExists` is `true`. -/
def normStep (env : Env) (file : Entry) : Except ConvError Entry :=
  if strLower file.suffix == ".doc" then convert_doc_to_docx env file true
  else .ok file

/-- The trailing `docx_to_pdf_convert(source, target)` call of the per-file
`try` block, reached when soffice was absent or did not produce the target;
a raise here is caught by the job-boundary `except`. -/
def docx2pdfStep (env : Env) (file source_path : Entry)
    (prevCalls : List (Backend × Target)) (prevLines : List ReportLine) : JobRun :=
  match env.docx2pdfCall source_path with
  | some d =>
    ⟨.failed (.backendExc d), prevCalls ++ [(.docx2pdfB, .single source_path)],
      prevLines ++ [.failedLine (fileName file) (.backendExc d)]⟩
  | none =>
    ⟨.success .docx2pdfB, prevCalls ++ [(.docx2pdfB, .single source_path)],
      prevLines ++ [.convertedLine (fileName file)]⟩

/-- The body of the `for file in files` loop of `convert_docx_to_pdf`
(identical to the `try` body of `convert_single_docx_to_pdf`): normalize a
legacy `.doc`, try soffice if resolvable (success only if the target pdf
exists afterwards), otherwise fall back to `docx2pdf`; every exception is
caught at this job's boundary and printed as a `Failed to convert` line. -/
def docxToPdfJob (env : Env) (file : Entry) : JobRun :=
  match normStep env file with
  | .error e => ⟨.failed e, [], [.failedLine (fileName file) e]⟩
  | .ok source_path =>
    if env.soffice then
      match env.sofficePdfCall source_path with
      | none =>
        if env.sofficePdfOutput source_path then
          ⟨.success .sofficePdfB, [(.sofficePdfB, .single source_path)],
            [.convertedViaSofficeLine (fileName file)]⟩
        else
          docx2pdfStep env file source_path [(.sofficePdfB, .single source_path)] []
      | some d =>
        docx2pdfStep env file source_path [(.sofficePdfB, .single source_path)]
          [.sofficeFailedLine (fileName file) d]
    else docx2pdfStep env file source_path [] []

/-- The body of the `for file in files` loop of `convert_pdf_to_docx`
(identical to the `try` body of `convert_single_pdf_to_docx`): one
`pdf2docx` attempt, exceptions caught at the job boundary. -/
def pdfToDocxJob (env : Env) (file : Entry) : JobRun :=
  match env.pdf2docxCall file with
  | some d =>
    ⟨.failed (.backendExc d), [(.pdf2docxB, .single file)],
      [.failedLine (fileName file) (.backendExc d)]⟩
  | none =>
    ⟨.success .pdf2docxB, [(.pdf2docxB, .single file)],
      [.convertedLine (fileName file)]⟩

/-- Observable outcome of a directory-mode conversion: the exception that
escaped (only backend unavailability can), whether the output subdirectory
was created, whether the `No ... files found` message was printed, the
summary counters, the printed per-file lines, and the pdf-stage backend
invocations in order. -/
structure BatchOutcome where
  raised : Option ConvError
  dirCreated : Bool
  noFilesMsg : Bool
  converted : Nat
  total : Nat
  lines : List ReportLine
  calls : List (Backend × Target)
  deriving DecidableEq, Repr

/-- The suffixes accepted by the Word -> PDF direction. -/
def wordSuffixes : List String := [".docx", ".doc"]

/-- `convert_docx_to_pdf`: raise if `docx2pdf` is unavailable; create the
output directory; discover files; short-circuit with a message when none;
else run the per-file loop and print the `converted/total` summary. -/
def convert_docx_to_pdf (env : Env) (entries : List Entry) : BatchOutcome :=
  if !env.docx2pdf then ⟨some .docx2pdfUnavailable, false, false, 0, 0, [], []⟩
  else
    let files := iter_files_with_suffix entries wordSuffixes
    if files.isEmpty then ⟨none, true, true, 0, 0, [], []⟩
    else
      let runs := files.map (docxToPdfJob env)
      ⟨none, true, false, (runs.filter (fun r => r.outcome.isSuccess)).length,
        files.length, (runs.map (fun r => r.lines)).flatten,
        (runs.map (fun r => r.calls)).flatten⟩

/-- `convert_pdf_to_docx`: same shape with the single `pdf2docx` backend. -/
def convert_pdf_to_docx (env : Env) (entries : List Entry) : BatchOutcome :=
  if !env.pdf2docx then ⟨some .pdf2docxUnavailable, false, false, 0, 0, [], []⟩
  else
    let files := iter_files_with_suffix entries [".pdf"]
    if files.isEmpty then ⟨none, true, true, 0, 0, [], []⟩
    else
      let runs := files.map (pdfToDocxJob env)
      ⟨none, true, false, (runs.filter (fun r => r.outcome.isSuccess)).length,
        files.length, (runs.map (fun r => r.lines)).flatten,
        (runs.map (fun r => r.calls)).flatten⟩

/-- Observable outcome of a single-file conversion. -/
structure SingleOutcome where
  raised : Option ConvError
  dirCreated : Bool
  lines : List ReportLine
  calls : List (Backend × Target)
  deriving DecidableEq, Repr

/-- `convert_single_docx_to_pdf`: raise if `docx2pdf` is unavailable; raise
`FileNotFoundError` if the path does not exist or has the wrong extension;
else create the output directory and run the job with its boundary catch. -/
def convert_single_docx_to_pdf (env : Env) (file : Entry) (fileExists : Bool) :
    SingleOutcome :=
  if !env.docx2pdf then ⟨some .docx2pdfUnavailable, false, [], []⟩
  else if !fileExists || !(wordSuffixes.contains (strLower file.suffix)) then
    ⟨some (.fileNotFound ("Archivo .doc/.docx no válido: " ++ fileName file)), false, [], []⟩
  else
    let run := docxToPdfJob env file
    ⟨none, true, run.lines, run.calls⟩

/-- `convert_single_pdf_to_docx`: raise if `pdf2docx` is unavailable; raise
`FileNotFoundError` if the path does not exist or is not a `.pdf`; else
create the output directory and run the job with its boundary catch. -/
def convert_single_pdf_to_docx (env : Env) (file : Entry) (fileExists : Bool) :
    SingleOutcome :=
  if !env.pdf2docx then ⟨some .pdf2docxUnavailable, false, [], []⟩
  else if !fileExists || !(strLower file.suffix == ".pdf") then
    ⟨some (.fileNotFound ("Archivo .pdf no válido: " ++ fileName file)), false, [], []⟩
  else
    let run := pdfToDocxJob env file
    ⟨none, true, run.lines, run.calls⟩

/-- The exit code `main` produces for the conversion phase: the second
`try` block of `main` catches any exception and calls `sys.exit(1)`; a
normal return exits with code 0. -/
def exitCode (raised : Option ConvError) : Nat :=
  match raised with
  | some _ => 1
  | none => 0

/-! Concrete entries and environments used to instantiate the theorems. -/

/-- `a.docx`. -/
def aDocx : Entry := ⟨"a", ".docx", true⟩

/-- `b.docx`. -/
def bDocx : Entry := ⟨"b", ".docx", true⟩

/-- `c.docx`. -/
def cDocx : Entry := ⟨"c", ".docx", true⟩

/-- `b.doc`, a legacy-format file. -/
def bDoc : Entry := ⟨"b", ".doc", true⟩

/-- `notes.txt`, an ineligible file. -/
def notesTxt : Entry := ⟨"notes", ".txt", true⟩

/-- `report.pdf`. -/
def reportPdf : Entry := ⟨"report", ".pdf", true⟩

/-- Every capability present and every call succeeding with output. -/
def allOkEnv : Env :=
  ⟨true, true, true, true, fun _ => none, fun _ => true, fun _ => none,
    fun _ => none, fun _ => true, fun _ => none, fun _ => none⟩

/-- soffice absent, libraries present and succeeding. -/
def noSofficeEnv : Env :=
  ⟨false, true, true, true, fun _ => none, fun _ => true, fun _ => none,
    fun _ => none, fun _ => true, fun _ => none, fun _ => none⟩

/-- Neither soffice nor the Word COM interface is available; the
libraries are present and succeed. -/
def noNormEnv : Env :=
  ⟨false, false, true, true, fun _ => none, fun _ => true, fun _ => none,
    fun _ => none, fun _ => true, fun _ => none, fun _ => none⟩

/-- soffice present; for the file with stem `b` the soffice pdf call raises
and the `docx2pdf` call raises too, every other file converts via soffice. -/
def bFailsEnv : Env :=
  ⟨true, true, true, true, fun _ => none, fun _ => true, fun _ => none,
    fun e => if e.stem == "b" then some "soffice crashed" else none,
    fun e => !(e.stem == "b"),
    fun e => if e.stem == "b" then some "docx2pdf crashed" else none,
    fun _ => none⟩

/-- Every capability present but both soffice attempts raise and both
normalization paths fail. -/
def allFailEnv : Env :=
  ⟨true, true, true, true, fun _ => some "soffice docx crashed", fun _ => false,
    fun _ => some "com crashed",
    fun _ => some "soffice pdf crashed", fun _ => false,
    fun _ => some "docx2pdf crashed", fun _ => some "pdf2docx crashed"⟩

/-- The `pdf2docx` library failed to import; everything else present. -/
def noPdf2docxEnv : Env :=
  ⟨true, true, true, false, fun _ => none, fun _ => true, fun _ => none,
    fun _ => none, fun _ => true, fun _ => none, fun _ => none⟩

/-! Helper lemmas shared by the claim theorems. -/

/-- A job that ends in failure printed a `Failed to convert` line naming the
file and the underlying cause. -/
theorem docxToPdfJob_failed_line (env : Env) (file : Entry) (e : ConvError)
    (h : (docxToPdfJob env file).outcome = JobOutcome.failed e) :
    ReportLine.failedLine (fileName file) e ∈ (docxToPdfJob env file).lines := by
  revert h
  unfold docxToPdfJob docx2pdfStep
  rcases normStep env file with e' | sp
  · simp
    exact fun h => h.symm
  · by_cases hs : env.soffice <;> simp [hs]
    · rcases env.sofficePdfCall sp with _ | d
      · by_cases ho : env.sofficePdfOutput sp <;> simp [ho]
        rcases env.docx2pdfCall sp with _ | d2 <;> simp
        exact fun h => h.symm
      · rcases env.docx2pdfCall sp with _ | d2 <;> simp
        exact fun h => h.symm
    · rcases env.docx2pdfCall sp with _ | d2 <;> simp
      exact fun h => h.symm

/-- Same for the PDF -> Word job. -/
theorem pdfToDocxJob_failed_line (env : Env) (file : Entry) (e : ConvError)
    (h : (pdfToDocxJob env file).outcome = JobOutcome.failed e) :
    ReportLine.failedLine (fileName file) e ∈ (pdfToDocxJob env file).lines := by
  revert h
  unfold pdfToDocxJob
  rcases env.pdf2docxCall file with _ | d <;> simp
  exact fun h => h.symm

/-- Every backend invocation a Word -> PDF job records is handed a single
file, never a whole directory. -/
theorem docxToPdfJob_calls_single (env : Env) (file : Entry)
    (c : Backend × Target) (h : c ∈ (docxToPdfJob env file).calls) :
    ∃ e, c.2 = Target.single e := by
  revert h
  unfold docxToPdfJob docx2pdfStep
  rcases normStep env file with e' | sp
  · simp
  · by_cases hs : env.soffice <;> simp [hs]
    · rcases env.sofficePdfCall sp with _ | d
      · by_cases ho : env.sofficePdfOutput sp <;> simp [ho]
        · rintro rfl; exact ⟨sp, rfl⟩
        · rcases env.docx2pdfCall sp with _ | d2 <;> simp <;>
            rintro (rfl | rfl) <;> exact ⟨sp, rfl⟩
      · rcases env.docx2pdfCall sp with _ | d2 <;> simp <;>
          rintro (rfl | rfl) <;> exact ⟨sp, rfl⟩
    · rcases env.docx2pdfCall sp with _ | d2 <;> simp <;>
        rintro rfl <;> exact ⟨sp, rfl⟩

/-! Claim theorems. -/

/-- Claim C6: for every directory and accepted-extension set, file discovery
yields exactly the direct children that are regular files whose extension
matches an accepted extension case-insensitively; subdirectories are never
traversed (only direct children can appear) and non-matching files are
excluded. -/
theorem c6_file_discovery (entries : List Entry) (suffixes : List String) (e : Entry) :
    e ∈ iter_files_with_suffix entries suffixes ↔
      e ∈ entries ∧ e.isFile = true ∧ ∃ s ∈ suffixes, strLower s = strLower e.suffix := by
  unfold iter_files_with_suffix
  simp [List.mem_filter, and_assoc]

/-- Claim C5: a headless-office-suite invocation counts as a success only if
the expected output file exists after the call; a normal return (zero exit
code) alone is never treated as success.  For normalization this means a
successful result implies the soffice output existed or the Word COM path
ran; for Word -> PDF it means a job converted via soffice only if the
expected PDF existed after the call. -/
theorem c5_output_existence_required :
    (∀ env src dest, convert_doc_to_docx env src true = Except.ok dest →
      env.win32com = true ∨ env.sofficeDocxOutput src = true)
    ∧ (∀ env file, (docxToPdfJob env file).outcome = JobOutcome.success Backend.sofficePdfB →
      ∃ sp, normStep env file = Except.ok sp ∧ env.sofficePdfOutput sp = true) := by
  constructor
  · intro env src dest h
    by_cases hw : env.win32com
    · exact Or.inl hw
    · refine Or.inr ?_
      revert h
      unfold convert_doc_to_docx comFallback
      by_cases hs : env.soffice <;> simp [hs, hw]
      rcases env.sofficeDocxCall src with _ | d <;> simp
      by_cases ho : env.sofficeDocxOutput src <;> simp [ho]
  · intro env file
    unfold docxToPdfJob docx2pdfStep
    rcases hn : normStep env file with e' | sp
    · simp
    · dsimp only
      by_cases hs : env.soffice
      · rw [if_pos hs]
        rcases env.sofficePdfCall sp with _ | d
        · by_cases ho : env.sofficePdfOutput sp
          · rw [if_pos ho]
            exact fun _ => ⟨sp, rfl, ho⟩
          · rw [if_neg ho]
            rcases env.docx2pdfCall sp with _ | d2 <;> simp
        · rcases env.docx2pdfCall sp with _ | d2 <;> simp
      · rw [if_neg hs]
        rcases env.docx2pdfCall sp with _ | d2 <;> simp

/-- Witness for C5 at a concrete environment where every call succeeds. -/
theorem c5_output_existence_required_witness :
    (allOkEnv.win32com = true ∨ allOkEnv.sofficeDocxOutput bDoc = true)
    ∧ ∃ sp, normStep allOkEnv aDocx = Except.ok sp
        ∧ allOkEnv.sofficePdfOutput sp = true :=
  ⟨c5_output_existence_required.1 allOkEnv bDoc ⟨"b", ".docx", true⟩ rfl,
    c5_output_existence_required.2 allOkEnv aDocx rfl⟩

/-- Claim C1: in a Word -> PDF job where soffice (backend A) is resolvable
but its attempt fails — the subprocess call raises, or the expected PDF does
not exist afterwards — the docx2pdf library (backend B) is still invoked on
that same job before any failure is recorded: the job's invocation list is
exactly soffice followed by docx2pdf.  Moreover every invocation of a job
belonging to a batch occurs within that batch run. -/
theorem c1_backend_fallback :
    (∀ env file sp, normStep env file = Except.ok sp → env.soffice = true →
      (env.sofficePdfCall sp ≠ none ∨ env.sofficePdfOutput sp = false) →
      (docxToPdfJob env file).calls =
        [(Backend.sofficePdfB, Target.single sp), (Backend.docx2pdfB, Target.single sp)])
    ∧ (∀ env entries file c, env.docx2pdf = true →
      file ∈ iter_files_with_suffix entries wordSuffixes →
      c ∈ (docxToPdfJob env file).calls →
      c ∈ (convert_docx_to_pdf env entries).calls) := by
  constructor
  · intro env file sp hn hs hf
    unfold docxToPdfJob docx2pdfStep
    rw [hn]
    simp only [hs, if_true]
    rcases hc : env.sofficePdfCall sp with _ | d
    · rcases hf with hf | hf
      · exact absurd hc hf
      · simp [hf]
        rcases env.docx2pdfCall sp with _ | d2 <;> simp
    · rcases env.docx2pdfCall sp with _ | d2 <;> simp
  · intro env entries file c hav hmem hc
    unfold convert_docx_to_pdf
    have hne : (iter_files_with_suffix entries wordSuffixes).isEmpty = false := by
      rcases h : iter_files_with_suffix entries wordSuffixes with _ | ⟨x, xs⟩
      · rw [h] at hmem; cases hmem
      · rfl
    simp only [hav, Bool.not_true, Bool.false_eq_true, if_false, hne, if_false]
    simp only [List.mem_flatten, List.mem_map]
    exact ⟨(docxToPdfJob env file).calls, ⟨docxToPdfJob env file, ⟨file, hmem, rfl⟩, rfl⟩, hc⟩

/-- Witness for C1 at a concrete environment where every backend raises. -/
theorem c1_backend_fallback_witness :
    (docxToPdfJob allFailEnv aDocx).calls =
      [(Backend.sofficePdfB, Target.single aDocx), (Backend.docx2pdfB, Target.single aDocx)]
    ∧ (Backend.docx2pdfB, Target.single aDocx) ∈ (convert_docx_to_pdf allFailEnv [aDocx]).calls :=
  ⟨c1_backend_fallback.1 allFailEnv aDocx aDocx rfl rfl (Or.inl (by decide)),
    c1_backend_fallback.2 allFailEnv [aDocx] aDocx (Backend.docx2pdfB, Target.single aDocx)
      rfl (by decide) (by decide)⟩

/-- Characterization of `convert_docx_to_pdf` when the library imported. -/
theorem convert_docx_to_pdf_eq (env : Env) (entries : List Entry)
    (hav : env.docx2pdf = true) :
    convert_docx_to_pdf env entries =
      if (iter_files_with_suffix entries wordSuffixes).isEmpty then
        ⟨none, true, true, 0, 0, [], []⟩
      else
        ⟨none, true, false,
          (((iter_files_with_suffix entries wordSuffixes).map (docxToPdfJob env)).filter
            (fun r => r.outcome.isSuccess)).length,
          (iter_files_with_suffix entries wordSuffixes).length,
          (((iter_files_with_suffix entries wordSuffixes).map (docxToPdfJob env)).map
            (fun r => r.lines)).flatten,
          (((iter_files_with_suffix entries wordSuffixes).map (docxToPdfJob env)).map
            (fun r => r.calls)).flatten⟩ := by
  unfold convert_docx_to_pdf
  simp [hav]

/-- Claim C2: in directory-mode batch conversion, an exception while
converting one file is caught at that job's boundary and reported with the
file name and the underlying cause, and every discovered file gets a job
(the summary counts converted over total); concretely, for a batch of three
files where the second fails both backends, the summary is 2/3 and files
one and three are converted. -/
theorem c2_batch_isolation :
    (∀ env entries, env.docx2pdf = true →
      (convert_docx_to_pdf env entries).raised = none
      ∧ (convert_docx_to_pdf env entries).total =
          (iter_files_with_suffix entries wordSuffixes).length
      ∧ ∀ file e, file ∈ iter_files_with_suffix entries wordSuffixes →
          (docxToPdfJob env file).outcome = JobOutcome.failed e →
          ReportLine.failedLine (fileName file) e ∈ (convert_docx_to_pdf env entries).lines)
    ∧ ((convert_docx_to_pdf bFailsEnv [aDocx, bDocx, cDocx]).converted = 2
      ∧ (convert_docx_to_pdf bFailsEnv [aDocx, bDocx, cDocx]).total = 3
      ∧ (docxToPdfJob bFailsEnv aDocx).outcome.isSuccess = true
      ∧ (docxToPdfJob bFailsEnv bDocx).outcome =
          JobOutcome.failed (ConvError.backendExc "docx2pdf crashed")
      ∧ (docxToPdfJob bFailsEnv cDocx).outcome.isSuccess = true) := by
  constructor
  · intro env entries hav
    rw [convert_docx_to_pdf_eq env entries hav]
    by_cases hemp : (iter_files_with_suffix entries wordSuffixes).isEmpty
    · rw [if_pos hemp]
      refine ⟨rfl, ?_, ?_⟩
      · rw [List.isEmpty_iff.mp hemp]
        rfl
      · intro file e hmem
        rw [List.isEmpty_iff.mp hemp] at hmem
        cases hmem
    · rw [if_neg hemp]
      refine ⟨rfl, by simp, ?_⟩
      intro file e hmem hfail
      simp only [List.mem_flatten, List.mem_map]
      exact ⟨(docxToPdfJob env file).lines, ⟨docxToPdfJob env file, ⟨file, hmem, rfl⟩, rfl⟩,
        docxToPdfJob_failed_line env file e hfail⟩
  · decide

/-- Witness for C2: running the three-file batch yields no escaping
exception, and the failing file's line names it with its cause. -/
theorem c2_batch_isolation_witness :
    (convert_docx_to_pdf bFailsEnv [aDocx, bDocx, cDocx]).raised = none
    ∧ ReportLine.failedLine (fileName bDocx) (ConvError.backendExc "docx2pdf crashed")
        ∈ (convert_docx_to_pdf bFailsEnv [aDocx, bDocx, cDocx]).lines :=
  ⟨(c2_batch_isolation.1 bFailsEnv [aDocx, bDocx, cDocx] rfl).1,
    (c2_batch_isolation.1 bFailsEnv [aDocx, bDocx, cDocx] rfl).2.2 bDocx
      (ConvError.backendExc "docx2pdf crashed") (by decide) (by decide)⟩

/-- Claim C3: for a legacy `.doc` when neither soffice nor Word COM is
available the normalization error carries no cause; when both are present
and both fail it is chained to the last underlying cause (the COM
exception); its message instructs installing LibreOffice or adjusting the
Word trust configuration; and in batch mode the error is caught per file
and counted as one batch failure rather than terminating the run. -/
theorem c3_normalization_error :
    (∀ env src, env.soffice = false → env.win32com = false →
      convert_doc_to_docx env src true = Except.error ConvError.normalizationNoCause)
    ∧ (∀ env src d1 d2, env.soffice = true → env.win32com = true →
      env.sofficeDocxCall src = some d1 → env.wordComCall src = some d2 →
      convert_doc_to_docx env src true =
        Except.error (ConvError.normalizationFrom (ConvError.backendExc d2)))
    ∧ (∀ c, errMessage (ConvError.normalizationFrom c) = normalizationMsg)
    ∧ errMessage ConvError.normalizationNoCause = normalizationMsg
    ∧ ((convert_docx_to_pdf noNormEnv [bDoc, aDocx]).raised = none
      ∧ (docxToPdfJob noNormEnv bDoc).outcome =
          JobOutcome.failed ConvError.normalizationNoCause
      ∧ (convert_docx_to_pdf noNormEnv [bDoc, aDocx]).converted = 1
      ∧ (convert_docx_to_pdf noNormEnv [bDoc, aDocx]).total = 2) := by
  refine ⟨?_, ?_, fun c => rfl, rfl, by decide⟩
  · intro env src h1 h2
    unfold convert_doc_to_docx comFallback
    simp [h1, h2]
  · intro env src d1 d2 h1 h2 hc hw
    unfold convert_doc_to_docx comFallback
    simp [h1, h2, hc, hw]

/-- Witness for C3 at environments with no normalization path and with
both paths failing. -/
theorem c3_normalization_error_witness :
    convert_doc_to_docx noNormEnv bDoc true = Except.error ConvError.normalizationNoCause
    ∧ convert_doc_to_docx allFailEnv bDoc true =
        Except.error (ConvError.normalizationFrom (ConvError.backendExc "com crashed")) :=
  ⟨c3_normalization_error.1 noNormEnv bDoc rfl rfl,
    c3_normalization_error.2.1 allFailEnv bDoc "soffice docx crashed" "com crashed"
      rfl rfl rfl rfl⟩

/-- Claim C4 as stated is false: with soffice (backend A) unavailable and a
directory of two modern-format files, the batch makes two separate
`docx2pdf` invocations, each handed a single file; there is no single call
handing the whole source directory to a batch API. -/
theorem c4_counterexample :
    (convert_docx_to_pdf noSofficeEnv [aDocx, bDocx]).calls =
      [(Backend.docx2pdfB, Target.single aDocx), (Backend.docx2pdfB, Target.single bDocx)]
    ∧ ¬ (convert_docx_to_pdf noSofficeEnv [aDocx, bDocx]).calls.length = 1
    ∧ ∀ c ∈ (convert_docx_to_pdf noSofficeEnv [aDocx, bDocx]).calls,
        c.2 ≠ Target.wholeDir := by
  decide

/-- Claim C4 amended: in batch Word -> PDF mode every backend invocation —
in particular each `docx2pdf` call made when backend A is unavailable — is
handed one single file; the loop converts file by file and no call ever
receives the whole source directory. -/
theorem c4_per_file_calls (env : Env) (entries : List Entry)
    (c : Backend × Target) (h : c ∈ (convert_docx_to_pdf env entries).calls) :
    ∃ e, c.2 = Target.single e := by
  revert h
  by_cases hav : env.docx2pdf
  · rw [convert_docx_to_pdf_eq env entries hav]
    by_cases hemp : (iter_files_with_suffix entries wordSuffixes).isEmpty
    · rw [if_pos hemp]
      intro h
      cases h
    · rw [if_neg hemp]
      simp only [List.mem_flatten, List.mem_map]
      rintro ⟨l, ⟨r, ⟨f, hf, rfl⟩, rfl⟩, hc⟩
      exact docxToPdfJob_calls_single env f c hc
  · simp only [Bool.not_eq_true] at hav
    unfold convert_docx_to_pdf
    simp [hav]

/-- Witness for the amended C4 at a concrete per-file docx2pdf call. -/
theorem c4_per_file_calls_witness :
    ∃ e, (Backend.docx2pdfB, Target.single aDocx).2 = Target.single e :=
  c4_per_file_calls noSofficeEnv [aDocx] (Backend.docx2pdfB, Target.single aDocx) (by decide)

/-- Claim C7: for a directory with zero eligible files, directory-mode
conversion in either direction performs no backend invocation and no write
beyond the idempotent output-directory creation, prints the informational
`No ... files found` message with zero conversions, and the run completes
with exit code 0. -/
theorem c7_empty_directory :
    (∀ env entries, env.docx2pdf = true →
      (iter_files_with_suffix entries wordSuffixes).isEmpty = true →
      convert_docx_to_pdf env entries = ⟨none, true, true, 0, 0, [], []⟩
      ∧ exitCode (convert_docx_to_pdf env entries).raised = 0)
    ∧ (∀ env entries, env.pdf2docx = true →
      (iter_files_with_suffix entries [".pdf"]).isEmpty = true →
      convert_pdf_to_docx env entries = ⟨none, true, true, 0, 0, [], []⟩
      ∧ exitCode (convert_pdf_to_docx env entries).raised = 0) := by
  constructor
  · intro env entries hav hemp
    have h : convert_docx_to_pdf env entries = ⟨none, true, true, 0, 0, [], []⟩ := by
      unfold convert_docx_to_pdf
      simp [hav, hemp]
    exact ⟨h, by rw [h]; rfl⟩
  · intro env entries hav hemp
    have h : convert_pdf_to_docx env entries = ⟨none, true, true, 0, 0, [], []⟩ := by
      unfold convert_pdf_to_docx
      simp [hav, hemp]
    exact ⟨h, by rw [h]; rfl⟩

/-- Witness for C7 on a directory holding only `notes.txt`. -/
theorem c7_empty_directory_witness :
    (convert_docx_to_pdf allOkEnv [notesTxt] = ⟨none, true, true, 0, 0, [], []⟩
      ∧ exitCode (convert_docx_to_pdf allOkEnv [notesTxt]).raised = 0)
    ∧ (convert_pdf_to_docx allOkEnv [notesTxt] = ⟨none, true, true, 0, 0, [], []⟩
      ∧ exitCode (convert_pdf_to_docx allOkEnv [notesTxt]).raised = 0) :=
  ⟨c7_empty_directory.1 allOkEnv [notesTxt] rfl (by decide),
    c7_empty_directory.2 allOkEnv [notesTxt] rfl (by decide)⟩

/-- Claim C8 as stated is false: for a directory with zero eligible files
the output subdirectory IS created — `ensure_dir` runs before file
discovery and before the `nothing to convert` short-circuit. -/
theorem c8_counterexample :
    iter_files_with_suffix [notesTxt] wordSuffixes = []
    ∧ (convert_docx_to_pdf allOkEnv [notesTxt]).dirCreated = true
    ∧ iter_files_with_suffix [notesTxt] [".pdf"] = []
    ∧ (convert_pdf_to_docx allOkEnv [notesTxt]).dirCreated = true := by
  decide

/-- Claim C8 amended: in directory mode the output subdirectory is created
unconditionally, before file discovery and the `nothing to convert`
short-circuit, whenever the required library imported — even when the
directory has zero eligible files. -/
theorem c8_dir_created_unconditionally :
    (∀ env entries, env.docx2pdf = true →
      (convert_docx_to_pdf env entries).dirCreated = true)
    ∧ (∀ env entries, env.pdf2docx = true →
      (convert_pdf_to_docx env entries).dirCreated = true) := by
  constructor
  · intro env entries hav
    unfold convert_docx_to_pdf
    simp [hav]
    split <;> rfl
  · intro env entries hav
    unfold convert_pdf_to_docx
    simp [hav]
    split <;> rfl

/-- Witness for the amended C8 on a directory with zero eligible files. -/
theorem c8_dir_created_unconditionally_witness :
    (convert_docx_to_pdf noSofficeEnv [notesTxt]).dirCreated = true
    ∧ (convert_pdf_to_docx noSofficeEnv [notesTxt]).dirCreated = true :=
  ⟨c8_dir_created_unconditionally.1 noSofficeEnv [notesTxt] rfl,
    c8_dir_created_unconditionally.2 noSofficeEnv [notesTxt] rfl⟩

/-- Claim C9: single-file PDF -> Word conversion with the `pdf2docx`
library unavailable fails immediately — before any filesystem work — with
the descriptive error naming the missing library; no `convert_words`
output directory is created, and the process exits with code 1. -/
theorem c9_pdf2docx_unavailable (env : Env) (file : Entry) (fe : Bool)
    (h : env.pdf2docx = false) :
    convert_single_pdf_to_docx env file fe =
      ⟨some ConvError.pdf2docxUnavailable, false, [], []⟩
    ∧ errMessage ConvError.pdf2docxUnavailable =
        "pdf2docx is not available. Install with 'pip install pdf2docx'."
    ∧ exitCode (convert_single_pdf_to_docx env file fe).raised = 1 := by
  have h1 : convert_single_pdf_to_docx env file fe =
      ⟨some ConvError.pdf2docxUnavailable, false, [], []⟩ := by
    unfold convert_single_pdf_to_docx
    simp [h]
  exact ⟨h1, rfl, by rw [h1]; rfl⟩

/-- Witness for C9 on `report.pdf` with `pdf2docx` missing. -/
theorem c9_pdf2docx_unavailable_witness :
    convert_single_pdf_to_docx noPdf2docxEnv reportPdf true =
      ⟨some ConvError.pdf2docxUnavailable, false, [], []⟩
    ∧ errMessage ConvError.pdf2docxUnavailable =
        "pdf2docx is not available. Install with 'pip install pdf2docx'."
    ∧ exitCode (convert_single_pdf_to_docx noPdf2docxEnv reportPdf true).raised = 1 :=
  c9_pdf2docx_unavailable noPdf2docxEnv reportPdf true rfl

/-- Claim C10: in single-file mode no exception escapes once the file
validates and the required library imported — the conversion's own failure
is caught inside the single-file function, printed as a `Failed to
convert` line, and the process exits 0; an escaping exception (exit code 1)
occurs exactly on validation failure or library unavailability. -/
theorem c10_single_failure_exit_zero :
    (∀ env file fe,
      ((convert_single_docx_to_pdf env file fe).raised = none ↔
        env.docx2pdf = true ∧ fe = true
          ∧ wordSuffixes.contains (strLower file.suffix) = true))
    ∧ (∀ env file fe,
      ((convert_single_pdf_to_docx env file fe).raised = none ↔
        env.pdf2docx = true ∧ fe = true ∧ (strLower file.suffix == ".pdf") = true))
    ∧ (∀ env file e, env.docx2pdf = true →
      wordSuffixes.contains (strLower file.suffix) = true →
      (docxToPdfJob env file).outcome = JobOutcome.failed e →
      ReportLine.failedLine (fileName file) e
          ∈ (convert_single_docx_to_pdf env file true).lines
        ∧ exitCode (convert_single_docx_to_pdf env file true).raised = 0)
    ∧ (∀ env file e, env.pdf2docx = true → (strLower file.suffix == ".pdf") = true →
      (pdfToDocxJob env file).outcome = JobOutcome.failed e →
      ReportLine.failedLine (fileName file) e
          ∈ (convert_single_pdf_to_docx env file true).lines
        ∧ exitCode (convert_single_pdf_to_docx env file true).raised = 0) := by
  refine ⟨?_, ?_, ?_, ?_⟩
  · intro env file fe
    unfold convert_single_docx_to_pdf
    by_cases hav : env.docx2pdf
    · by_cases hfe : fe
      · by_cases hsfx : wordSuffixes.contains (strLower file.suffix)
        · simp at hsfx
          simp [hav, hfe, hsfx]
        · simp at hsfx
          simp [hav, hfe, hsfx]
      · simp only [Bool.not_eq_true] at hfe
        simp [hav, hfe]
    · simp only [Bool.not_eq_true] at hav
      simp [hav]
  · intro env file fe
    unfold convert_single_pdf_to_docx
    by_cases hav : env.pdf2docx
    · by_cases hfe : fe
      · by_cases hsfx : (strLower file.suffix == ".pdf") = true
        · simp [hav, hfe, hsfx]
        · simp [hav, hfe, hsfx]
      · simp only [Bool.not_eq_true] at hfe
        simp [hav, hfe]
    · simp only [Bool.not_eq_true] at hav
      simp [hav]
  · intro env file e hav hsfx hfail
    have hsfx' : strLower file.suffix ∈ wordSuffixes := by simpa using hsfx
    have hrun : convert_single_docx_to_pdf env file true =
        ⟨none, true, (docxToPdfJob env file).lines, (docxToPdfJob env file).calls⟩ := by
      unfold convert_single_docx_to_pdf
      simp [hav, hsfx']
    rw [hrun]
    exact ⟨docxToPdfJob_failed_line env file e hfail, rfl⟩
  · intro env file e hav hsfx hfail
    have hrun : convert_single_pdf_to_docx env file true =
        ⟨none, true, (pdfToDocxJob env file).lines, (pdfToDocxJob env file).calls⟩ := by
      unfold convert_single_pdf_to_docx
      simp [hav, hsfx]
    rw [hrun]
    exact ⟨pdfToDocxJob_failed_line env file e hfail, rfl⟩

/-- Witness for C10: a validated `a.docx` whose both backends fail is
reported as a failure line and the process still exits 0. -/
theorem c10_single_failure_exit_zero_witness :
    ReportLine.failedLine (fileName aDocx) (ConvError.backendExc "docx2pdf crashed")
        ∈ (convert_single_docx_to_pdf allFailEnv aDocx true).lines
    ∧ exitCode (convert_single_docx_to_pdf allFailEnv aDocx true).raised = 0
    ∧ ReportLine.failedLine (fileName reportPdf) (ConvError.backendExc "pdf2docx crashed")
        ∈ (convert_single_pdf_to_docx allFailEnv reportPdf true).lines :=
  ⟨(c10_single_failure_exit_zero.2.2.1 allFailEnv aDocx
      (ConvError.backendExc "docx2pdf crashed") rfl (by decide) (by decide)).1,
    (c10_single_failure_exit_zero.2.2.1 allFailEnv aDocx
      (ConvError.backendExc "docx2pdf crashed") rfl (by decide) (by decide)).2,
    (c10_single_failure_exit_zero.2.2.2 allFailEnv reportPdf
      (ConvError.backendExc "pdf2docx crashed") rfl (by decide) (by decide)).1⟩
